import Mathlib

/-!
Verification of `subiquitycore/ui/interactive.py`: the `Selector` pop-up
single-select widget (option normalization, index setter, pop-up dialog
behavior and geometry) and the per-keystroke character filters of the
text editors (`RealnameEditor`, `EmailEditor`, `UsernameEditor`).

The embedding is shallow: Python exceptions become an `Except PyError`
result, Python list indexing (which accepts negative indices) becomes
`pyGet`, urwid signal emissions and widget mutations become an explicit
trace of `Action`s, and `re.match` of a single-character-class pattern
against a key string becomes a test on the first character of the key.
-/

set_option autoImplicit false

namespace Interactive

/-- A raw option passed to `Selector.__init__`: either a bare Python value
(a `str`, or something else), or a tuple, dispatched purely on its length.
A tuple of length 1 carries a label, length 2 a label and a selectable
flag, length 3 additionally an opaque value (a string in this codebase);
`tupMore` is any tuple of length `4 + extra`. -/
inductive RawOpt where
  | str (s : String)
  | nonStr
  | tup0
  | tup1 (label : String)
  | tup2 (label : String) (sel : Bool)
  | tup3 (label : String) (sel : Bool) (value : String)
  | tupMore (label : String) (sel : Bool) (value : String) (extra : Nat)
  deriving Repr, DecidableEq

/-- Errors raised by the Python code.  `selectorError` is
`SelectorError("invalid option %r", opt)` (it carries the offending raw
option); `indexError` is the `IndexError` of an out-of-range list index;
`valueError` is the `ValueError` of `max([])` on an empty sequence. -/
inductive PyError where
  | selectorError (opt : RawOpt)
  | indexError
  | valueError
  deriving Repr, DecidableEq

end Interactive

/-- A normalized option triple `(label, selectable, value)` as stored in
`Selector._options`. -/
structure SelOption where
  label : String
  selectable : Bool
  value : String
  deriving Repr, DecidableEq

namespace Interactive

/-- Normalization of one raw option, the body of the loop in
`Selector.__init__` (interactive.py lines 202-213):
a bare `str` `s` becomes `(s, True, s)`; a bare non-str non-tuple raises
`SelectorError`; `(label,)` becomes `(label, True, label)`;
`(label, sel)` becomes `(label, sel, label)`; a 3-tuple is kept
unchanged; any other tuple length raises `SelectorError`. -/
def normalizeOpt : RawOpt → Except PyError SelOption
  | .str s => .ok ⟨s, true, s⟩
  | .nonStr => .error (.selectorError .nonStr)
  | .tup0 => .error (.selectorError .tup0)
  | .tup1 l => .ok ⟨l, true, l⟩
  | .tup2 l b => .ok ⟨l, b, l⟩
  | .tup3 l b v => .ok ⟨l, b, v⟩
  | .tupMore l b v e => .error (.selectorError (.tupMore l b v e))

/-- The whole normalization loop of `Selector.__init__`: normalize each
raw option in order, stopping at the first invalid one. -/
def normalizeOpts : List RawOpt → Except PyError (List SelOption)
  | [] => .ok []
  | o :: os => do
    let n ← normalizeOpt o
    let ns ← normalizeOpts os
    .ok (n :: ns)

/-- Python list indexing resolution: index `i` into a list of length `n`
resolves to position `i` when `0 ≤ i < n`, to position `n + i` when
`-n ≤ i < 0`, and is out of range otherwise. -/
def pyIndex (n : Nat) (i : Int) : Option Nat :=
  if 0 ≤ i then
    if i < (n : Int) then some i.toNat else none
  else
    if 0 ≤ (n : Int) + i then some ((n : Int) + i).toNat else none

/-- Python `l[i]`: returns the element, or raises `IndexError`. -/
def pyGet {α : Type} (l : List α) (i : Int) : Except PyError α :=
  match pyIndex l.length i with
  | some j =>
    match l[j]? with
    | some a => .ok a
    | none => .error .indexError
  | none => .error .indexError

/-- `Selector._prefix`, the glyph shown before the current label. -/
def prefixStr : String := "(+) "

/-- One primitive observable effect of the Selector code, in the order it
happens: a `select` signal emission carrying a value, a call to
`self._button.set_text`, or an assignment to `self._index`. -/
inductive Action where
  | emitSelect (value : String)
  | setButtonText (text : String)
  | storeIndex (i : Int)
  deriving Repr, DecidableEq

/-- The values carried by the `select` emissions of a trace. -/
def selectEvents (acts : List Action) : List String :=
  acts.filterMap fun a =>
    match a with
    | .emitSelect v => some v
    | _ => none

/-- The state of a `Selector` widget: its normalized `_options`, the text
currently shown on `self._button`, and `self._index`. -/
structure Selector where
  options : List SelOption
  buttonText : String
  index : Int
  deriving Repr, DecidableEq

/-- `Selector._set_index(val)` (lines 223-225): set the button text to
`self._prefix + self._options[val][0]`, then store the index.  The list
access may raise `IndexError`; nothing is emitted. -/
def setIndexRaw (s : Selector) (val : Int) : Except PyError (Selector × List Action) := do
  let o ← pyGet s.options val
  .ok ({ s with buttonText := prefixStr ++ o.label, index := val },
       [.setButtonText (prefixStr ++ o.label), .storeIndex val])

/-- `Selector.__init__(opts, index=0)` (lines 200-216): normalize the raw
options, create the button showing `_prefix`, then `_set_index(index)`.
The trace holds every action after the button is created. -/
def Selector.init (opts : List RawOpt) (index : Int) : Except PyError (Selector × List Action) := do
  let options ← normalizeOpts opts
  let s₀ : Selector := { options := options, buttonText := prefixStr, index := 0 }
  setIndexRaw s₀ index

/-- The `Selector.index` setter (lines 231-234): evaluate
`self._options[val][2]`, emit `select` with it, then `_set_index(val)`.
If the index is out of range the access raises before anything is
emitted. -/
def Selector.setIndex (s : Selector) (val : Int) : Except PyError (Selector × List Action) := do
  let o ← pyGet s.options val
  let (s', acts) ← setIndexRaw s val
  .ok (s', .emitSelect o.value :: acts)

/-- The `Selector.value` property (lines 236-238):
`self._options[self._index][2]`. -/
def Selector.value (s : Selector) : Except PyError String := do
  let o ← pyGet s.options s.index
  .ok o.value

/-- `max([len(o[0]) for o in self._options])`: Python `max` raises
`ValueError` on an empty sequence. -/
def maxLabelLen (options : List SelOption) : Except PyError Nat :=
  match options.map (fun o => o.label.length) with
  | [] => .error .valueError
  | x :: xs => .ok (xs.foldl max x)

/-- The dictionary returned by `Selector.get_pop_up_parameters`. -/
structure PopUpParams where
  left : Int
  top : Int
  overlay_width : Nat
  overlay_height : Nat
  deriving Repr, DecidableEq

/-- `Selector.get_pop_up_parameters` (lines 243-246). -/
def Selector.get_pop_up_parameters (s : Selector) : Except PyError PopUpParams := do
  let m ← maxLabelLen s.options
  .ok { left := -1, top := -s.index - 1,
        overlay_width := m + prefixStr.length + 3,
        overlay_height := s.options.length + 2 }

/-- `_PopUpButton.states`: the glyph for the highlighted / normal row. -/
def statesDict (b : Bool) : String := if b then "(+) " else "( ) "

/-- One rendered row of the pop-up dialog: a clickable button row (its
click handler is connected with the row's enumeration index), or a plain
non-interactive text row. -/
inductive Row where
  | button (text : String) (clickIndex : Nat)
  | plain (text : String)
  deriving Repr, DecidableEq

/-- The loop of `_PopUpSelectDialog.__init__` (lines 163-171), with `i`
the enumeration counter: a selectable option becomes a `_PopUpButton`
showing `states[i == cur_index] + label` whose click signal carries `i`;
a non-selectable option becomes a plain `Text("    " + label)` row. -/
def mkRowsFrom (cur : Int) : List SelOption → Nat → List Row
  | [], _ => []
  | o :: rest, i =>
    (if o.selectable then Row.button (statesDict ((i : Int) == cur) ++ o.label) i
     else Row.plain ("    " ++ o.label)) :: mkRowsFrom cur rest (i + 1)

/-- The rows of `_PopUpSelectDialog(parent, cur_index)`. -/
def mkRows (options : List SelOption) (cur : Int) : List Row :=
  mkRowsFrom cur options 0

/-- The Selector together with its pop-up lifecycle state: `popupOpen` is
whether the transient `_PopUpSelectDialog` overlay currently exists. -/
structure UIState where
  selector : Selector
  popupOpen : Bool
  deriving Repr, DecidableEq

/-- `Selector.open_pop_up()`: the toolkit builds the dialog
(`create_pop_up`, seeded with the current index) and shows the overlay. -/
def openPopUp (st : UIState) : UIState := { st with popupOpen := true }

/-- `_PopUpSelectDialog.keypress` (lines 181-185): `esc` calls
`self.parent.close_pop_up()`; any other key is delegated to row-focus
navigation inside the dialog, which never touches the parent Selector. -/
def popupKeypress (st : UIState) (key : String) : UIState × List Action :=
  if key = "esc" then ({ st with popupOpen := false }, [])
  else (st, [])

/-- `_PopUpSelectDialog.click` (lines 177-179): `self.parent.index =
index` (the full index setter, with its emission), then
`self.parent.close_pop_up()`. -/
def popupClick (st : UIState) (i : Nat) : Except PyError (UIState × List Action) := do
  let (sel, acts) ← Selector.setIndex st.selector (i : Int)
  .ok ({ selector := sel, popupOpen := false }, acts)

/-! ### Editor key filters

`re.match(pattern, key)` with a single-character-class pattern succeeds
exactly when `key` is non-empty and its first character is in the class
(`re.match` anchors at the start and needs only a prefix match). -/

/-- `re.match` of a one-character-class regex against `key`. -/
def reMatchFirst (cls : Char → Bool) (key : String) : Bool :=
  match key.data with
  | [] => false
  | c :: _ => cls c

/-- Membership in the character class `[a-zA-Z0-9_\- ]` of
`RealnameEditor.keypress` (line 85). -/
def realnameClass (c : Char) : Bool :=
  (decide ('a' ≤ c) && decide (c ≤ 'z')) || (decide ('A' ≤ c) && decide (c ≤ 'Z')) ||
    (decide ('0' ≤ c) && decide (c ≤ '9')) || c == '_' || c == '-' || c == ' '

/-- Membership in the character class `[-a-zA-Z0-9_.@+=]` of
`EmailEditor.keypress` (line 99). -/
def emailClass (c : Char) : Bool :=
  c == '-' || (decide ('a' ≤ c) && decide (c ≤ 'z')) || (decide ('A' ≤ c) && decide (c ≤ 'Z')) ||
    (decide ('0' ≤ c) && decide (c ≤ '9')) || c == '_' || c == '.' || c == '@' ||
    c == '+' || c == '='

/-- Membership in `[a-z_]`, the class `UsernameEditor.keypress` uses when
the field is empty (line 115). -/
def usernameFirstClass (c : Char) : Bool :=
  (decide ('a' ≤ c) && decide (c ≤ 'z')) || c == '_'

/-- Membership in `[a-z0-9_-]`, the class `UsernameEditor.keypress` uses
when the field is non-empty (line 117). -/
def usernameRestClass (c : Char) : Bool :=
  (decide ('a' ≤ c) && decide (c ≤ 'z')) || (decide ('0' ≤ c) && decide (c ≤ '9')) ||
    c == '_' || c == '-'

/-- `RealnameEditor.keypress` (lines 82-89): swallow the key (return
`False`, modelled `none`) when the regex does not match, otherwise
forward it to the underlying editor (modelled `some key`). -/
def realnameKeypress (key : String) : Option String :=
  if reMatchFirst realnameClass key then some key else none

/-- `EmailEditor.keypress` (lines 96-103). -/
def emailKeypress (key : String) : Option String :=
  if reMatchFirst emailClass key then some key else none

/-- `UsernameEditor.keypress` (lines 110-123): the class depends on
`len(self.value)`; `value` is the current edit text. -/
def usernameKeypress (value key : String) : Option String :=
  if value.length = 0 then
    if reMatchFirst usernameFirstClass key then some key else none
  else
    if reMatchFirst usernameRestClass key then some key else none

/-- The invalid raw-option shapes as the spec describes them: a bare
non-text element, or a grouping of length 0 or greater than 3. -/
def invalidShapeSpec (o : RawOpt) : Prop :=
  o = .nonStr ∨ o = .tup0 ∨ ∃ l b v e, o = .tupMore l b v e

/-! ### Helper lemmas -/

theorem pyIndex_none_iff (n : Nat) (i : Int) :
    pyIndex n i = none ↔ i < -(n : Int) ∨ (n : Int) ≤ i := by
  unfold pyIndex
  split_ifs with h1 h2 h3 <;> simp <;> omega

theorem pyIndex_some_lt {n : Nat} {i : Int} {j : Nat}
    (h : pyIndex n i = some j) : j < n := by
  unfold pyIndex at h
  split_ifs at h with h1 h2 h3 <;> simp_all <;> omega

theorem pyIndex_some_range {n : Nat} {i : Int} {j : Nat}
    (h : pyIndex n i = some j) : -(n : Int) ≤ i ∧ i < (n : Int) := by
  unfold pyIndex at h
  split_ifs at h with h1 h2 h3 <;> simp_all <;> omega

theorem pyIndex_of_nonneg {n : Nat} {i : Int} (h0 : 0 ≤ i) (h : i < (n : Int)) :
    pyIndex n i = some i.toNat := by
  unfold pyIndex
  rw [if_pos h0, if_pos h]

theorem pyGet_ok_of_getElem? {α : Type} {l : List α} {i : Int} {a : α}
    (h0 : 0 ≤ i) (h : l[i.toNat]? = some a) : pyGet l i = .ok a := by
  have hlt : i.toNat < l.length := (List.getElem?_eq_some.mp h).1
  simp [pyGet, pyIndex_of_nonneg h0 (by omega : i < (l.length : Int)), h]

theorem pyGet_ok_range {α : Type} {l : List α} {i : Int} {a : α}
    (h : pyGet l i = .ok a) : -(l.length : Int) ≤ i ∧ i < (l.length : Int) := by
  unfold pyGet at h
  split at h
  · next j heq => exact pyIndex_some_range heq
  · cases h

theorem pyGet_error_eq {α : Type} {l : List α} {i : Int} {e : PyError}
    (h : pyGet l i = .error e) : e = .indexError := by
  unfold pyGet at h
  split at h
  · split at h
    · cases h
    · cases h
      rfl
  · cases h
    rfl

theorem pyGet_error_iff {α : Type} (l : List α) (i : Int) :
    pyGet l i = .error .indexError ↔
      i < -(l.length : Int) ∨ (l.length : Int) ≤ i := by
  unfold pyGet
  split
  · next j heq =>
    have hj : j < l.length := pyIndex_some_lt heq
    rw [List.getElem?_eq_getElem hj]
    simp
    have := pyIndex_some_range heq
    omega
  · next heq =>
    simp
    exact (pyIndex_none_iff l.length i).mp heq

theorem except_bind_ok {α β : Type} (a : α) (f : α → Except PyError β) :
    (Except.ok a : Except PyError α) >>= f = f a := rfl

theorem except_bind_error {α β : Type} (e : PyError) (f : α → Except PyError β) :
    (Except.error e : Except PyError α) >>= f = .error e := rfl

theorem normalizeOpt_ok_of_valid {o : RawOpt} (h : ¬ invalidShapeSpec o) :
    ∃ n, normalizeOpt o = .ok n := by
  cases o <;> simp_all [normalizeOpt, invalidShapeSpec]

theorem normalizeOpts_ok_of_valid {opts : List RawOpt}
    (h : ∀ o ∈ opts, ¬ invalidShapeSpec o) :
    ∃ ns, normalizeOpts opts = .ok ns := by
  induction opts with
  | nil => exact ⟨[], rfl⟩
  | cons o os ih =>
    obtain ⟨n, hn⟩ := normalizeOpt_ok_of_valid (h o (List.mem_cons_self o os))
    obtain ⟨ns, hns⟩ := ih fun o' ho' => h o' (List.mem_cons_of_mem o ho')
    exact ⟨n :: ns, by
      unfold normalizeOpts
      rw [hn, except_bind_ok, hns, except_bind_ok]⟩

theorem setIndexRaw_error_eq {s : Selector} {i : Int} {e : PyError}
    (h : setIndexRaw s i = .error e) : e = .indexError := by
  unfold setIndexRaw at h
  rcases hg : pyGet s.options i with e' | o <;> rw [hg] at h
  · rw [except_bind_error] at h
    cases h
    exact pyGet_error_eq hg
  · rw [except_bind_ok] at h
    cases h

theorem foldl_max_eq_foldr (xs : List Nat) (x : Nat) :
    xs.foldl max x = max x (xs.foldr max 0) := by
  induction xs generalizing x with
  | nil => simp
  | cons y ys ih =>
    simp only [List.foldl_cons, List.foldr_cons, ih (max x y)]
    omega

theorem mkRowsFrom_getElem? (cur : Int) (options : List SelOption) (k i : Nat) :
    (mkRowsFrom cur options k)[i]? =
      (options[i]?).map (fun o =>
        if o.selectable then
          Row.button (statesDict (((k + i : Nat) : Int) == cur) ++ o.label) (k + i)
        else Row.plain ("    " ++ o.label)) := by
  induction options generalizing k i with
  | nil => simp [mkRowsFrom]
  | cons o rest ih =>
    cases i with
    | zero => simp [mkRowsFrom]
    | succ i =>
      simp only [mkRowsFrom, List.getElem?_cons_succ, ih (k + 1) i]
      have hk : k + 1 + i = k + (i + 1) := by omega
      rw [hk]

theorem mkRows_button_elim {options : List SelOption} {cur : Int} {i : Nat} {t : String}
    (h : (mkRows options cur)[i]? = some (Row.button t i)) :
    ∃ o, options[i]? = some o ∧ o.selectable = true := by
  rw [mkRows, mkRowsFrom_getElem?] at h
  rcases ho : options[i]? with _ | o
  · simp [ho] at h
  · by_cases hsel : o.selectable
    · exact ⟨o, rfl, hsel⟩
    · simp [ho, hsel] at h

theorem string_length_eq_zero_iff (s : String) : s.length = 0 ↔ s = "" := by
  constructor
  · intro h
    cases s with
    | mk data =>
      cases data with
      | nil => rfl
      | cons c cs => simp [String.length] at h
  · intro h
    subst h
    rfl

theorem setIndexRaw_eq (s : Selector) (i : Int) :
    setIndexRaw s i =
      match pyGet s.options i with
      | .ok o => .ok ({ s with buttonText := prefixStr ++ o.label, index := i },
                      [.setButtonText (prefixStr ++ o.label), .storeIndex i])
      | .error e => .error e := by
  unfold setIndexRaw
  rcases hg : pyGet s.options i with e | o <;>
    simp [except_bind_ok, except_bind_error]

theorem setIndex_eq (s : Selector) (i : Int) :
    Selector.setIndex s i =
      match pyGet s.options i with
      | .ok o => .ok ({ s with buttonText := prefixStr ++ o.label, index := i },
                      [.emitSelect o.value, .setButtonText (prefixStr ++ o.label),
                       .storeIndex i])
      | .error e => .error e := by
  unfold Selector.setIndex
  rcases hg : pyGet s.options i with e | o <;>
    simp [setIndexRaw_eq, hg, except_bind_ok, except_bind_error]

theorem filter_keypress_iff (cls : Char → Bool) (key : String) (c : Char)
    (cs : List Char) (h : key.data = c :: cs) :
    ((if reMatchFirst cls key then some key else none) = some key ↔ cls c = true) ∧
    ((if reMatchFirst cls key then some key else none) = none ↔ cls c = false) := by
  have hm : reMatchFirst cls key = cls c := by
    unfold reMatchFirst
    rw [h]
  rw [hm]
  rcases hb : cls c <;> simp

/-! ### The claims -/

/-- Claim C1: for every raw option of a valid shape, construction
normalizes it to the documented triple: bare text `s` becomes
`(s, true, s)`; `(label,)` becomes `(label, true, label)`;
`(label, selectable)` becomes `(label, selectable, label)`; a 3-element
grouping is stored unchanged. -/
theorem selector_normalizes_valid_shapes (s l v : String) (b : Bool) :
    normalizeOpt (.str s) = .ok ⟨s, true, s⟩ ∧
    normalizeOpt (.tup1 l) = .ok ⟨l, true, l⟩ ∧
    normalizeOpt (.tup2 l b) = .ok ⟨l, b, l⟩ ∧
    normalizeOpt (.tup3 l b v) = .ok ⟨l, b, v⟩ :=
  ⟨rfl, rfl, rfl, rfl⟩

/-- Claim C2: every raw option of an invalid shape (a bare non-text
element, or a grouping of length 0 or greater than 3) makes
normalization raise a `SelectorError` identifying that option, and
`Selector` construction from only valid raw options never raises a
`SelectorError`. -/
theorem selector_rejects_invalid_shapes :
    (∀ o : RawOpt, invalidShapeSpec o → normalizeOpt o = .error (.selectorError o)) ∧
    (∀ (opts : List RawOpt) (index : Int),
      (∀ o ∈ opts, ¬ invalidShapeSpec o) →
      ∀ o' : RawOpt, Selector.init opts index ≠ .error (.selectorError o')) := by
  constructor
  · intro o ho
    rcases ho with h | h | ⟨l, b, v, e, h⟩ <;> subst h <;> rfl
  · intro opts index hvalid o' hcon
    obtain ⟨ns, hns⟩ := normalizeOpts_ok_of_valid hvalid
    unfold Selector.init at hcon
    rw [hns, except_bind_ok] at hcon
    cases setIndexRaw_error_eq hcon

/-- Witness for C2 at concrete inputs: a 0-length grouping is rejected
with a `SelectorError` carrying it, and construction from the single
valid option `"a"` raises no `SelectorError`. -/
theorem selector_rejects_invalid_shapes_witness :
    normalizeOpt RawOpt.tup0 = .error (.selectorError .tup0) ∧
    Selector.init [RawOpt.str "a"] 0 ≠ .error (.selectorError (RawOpt.str "a")) :=
  ⟨selector_rejects_invalid_shapes.1 .tup0 (Or.inr (Or.inl rfl)),
   selector_rejects_invalid_shapes.2 [.str "a"] 0
     (by
       intro o ho
       simp at ho
       subst ho
       simp [invalidShapeSpec])
     (.str "a")⟩

/-- Claim C3: setting `Selector.index` to an in-range `i` performs, in
this order: emit one `select` event carrying `options[i].value`, set the
button text to `prefix + options[i].label`, store `i`; afterwards the
`value` accessor returns `options[i].value` and the button label equals
`prefix + options[i].label`. -/
theorem selector_set_index_effects (s : Selector) (i : Int) (o : SelOption)
    (h0 : 0 ≤ i) (h : s.options[i.toNat]? = some o) :
    ∃ s', Selector.setIndex s i =
        .ok (s', [.emitSelect o.value, .setButtonText (prefixStr ++ o.label),
                  .storeIndex i]) ∧
      selectEvents [.emitSelect o.value, .setButtonText (prefixStr ++ o.label),
                    .storeIndex i] = [o.value] ∧
      s'.value = .ok o.value ∧ s'.buttonText = prefixStr ++ o.label ∧
      s'.index = i ∧ s'.options = s.options := by
  have hg : pyGet s.options i = .ok o := pyGet_ok_of_getElem? h0 h
  refine ⟨{ s with buttonText := prefixStr ++ o.label, index := i }, ?_, rfl, ?_,
          rfl, rfl, rfl⟩
  · rw [setIndex_eq, hg]
  · show (do
        let o' ← pyGet s.options i
        Except.ok o'.value) = Except.ok o.value
    rw [hg, except_bind_ok]

/-- Witness for C3: a two-option selector, setting the index to 1. -/
theorem selector_set_index_effects_witness :
    ∃ s', Selector.setIndex
        ⟨[⟨"Yes", true, "Yes"⟩, ⟨"No", true, "No"⟩], "(+) Yes", 0⟩ 1 =
        .ok (s', [.emitSelect "No", .setButtonText (prefixStr ++ "No"),
                  .storeIndex 1]) ∧
      selectEvents [.emitSelect "No", .setButtonText (prefixStr ++ "No"),
                    .storeIndex 1] = ["No"] ∧
      s'.value = .ok "No" ∧ s'.buttonText = prefixStr ++ "No" ∧
      s'.index = 1 ∧
      s'.options = ([⟨"Yes", true, "Yes"⟩, ⟨"No", true, "No"⟩] : List SelOption) :=
  selector_set_index_effects
    ⟨[⟨"Yes", true, "Yes"⟩, ⟨"No", true, "No"⟩], "(+) Yes", 0⟩ 1
    ⟨"No", true, "No"⟩ (by decide) rfl

/-- Claim C4: for a selector with non-empty options, the pop-up geometry
is: overlay width = longest label length + prefix length + 3, overlay
height = option count + 2, vertical anchor offset = -(index + 1),
horizontal anchor offset = -1. -/
theorem selector_popup_geometry (s : Selector) (h : s.options ≠ []) :
    s.get_pop_up_parameters = .ok
      { left := -1, top := -(s.index + 1),
        overlay_width :=
          (s.options.map fun o => o.label.length).foldr max 0 +
            prefixStr.length + 3,
        overlay_height := s.options.length + 2 } := by
  have htop : -s.index - 1 = -(s.index + 1) := by omega
  unfold Selector.get_pop_up_parameters maxLabelLen
  rcases hs : s.options.map (fun o => o.label.length) with _ | ⟨x, xs⟩
  · exact absurd (List.map_eq_nil_iff.mp hs) h
  · rw [hs]
    simp [except_bind_ok, foldl_max_eq_foldr, htop]

/-- Witness for C4: the two-option Yes/No selector. -/
theorem selector_popup_geometry_witness :
    Selector.get_pop_up_parameters
        ⟨[⟨"Yes", true, "Yes"⟩, ⟨"No", true, "No"⟩], "(+) Yes", 0⟩ =
      .ok { left := -1, top := -1, overlay_width := 10, overlay_height := 4 } :=
  selector_popup_geometry
    ⟨[⟨"Yes", true, "Yes"⟩, ⟨"No", true, "No"⟩], "(+) Yes", 0⟩ (by decide)

/-- Claim C5: on an open pop-up, the escape key closes the pop-up,
leaves the owning selector (index, value, button label) unchanged, and
emits no `select` event. -/
theorem popup_escape_closes (st : UIState) (h : st.popupOpen = true) :
    popupKeypress st "esc" = ({ st with popupOpen := false }, []) ∧
    (popupKeypress st "esc").1.selector.index = st.selector.index ∧
    (popupKeypress st "esc").1.selector.value = st.selector.value ∧
    (popupKeypress st "esc").1.selector.buttonText = st.selector.buttonText ∧
    (popupKeypress st "esc").1.popupOpen = false ∧
    selectEvents (popupKeypress st "esc").2 = [] :=
  ⟨rfl, rfl, rfl, rfl, rfl, rfl⟩

/-- Witness for C5: escape on an open one-option pop-up. -/
theorem popup_escape_closes_witness :
    popupKeypress ⟨⟨[⟨"Yes", true, "Yes"⟩], "(+) Yes", 0⟩, true⟩ "esc" =
      (⟨⟨[⟨"Yes", true, "Yes"⟩], "(+) Yes", 0⟩, false⟩, []) :=
  (popup_escape_closes ⟨⟨[⟨"Yes", true, "Yes"⟩], "(+) Yes", 0⟩, true⟩ rfl).1

/-- Claim C6: clicking a selectable row `i` of the open pop-up drives the
selector through exactly the direct `index = i` assignment (same
resulting state, same emitted actions), and the pop-up ends closed. -/
theorem popup_click_equals_set_index (st : UIState) (i : Nat) (t : String)
    (hopen : st.popupOpen = true)
    (hrow : (mkRows st.selector.options st.selector.index)[i]? =
      some (Row.button t i)) :
    ∃ s' acts, Selector.setIndex st.selector (i : Int) = .ok (s', acts) ∧
      popupClick st i = .ok ({ selector := s', popupOpen := false }, acts) := by
  obtain ⟨o, ho, hsel⟩ := mkRows_button_elim hrow
  have hg : pyGet st.selector.options (i : Int) = .ok o := by
    apply pyGet_ok_of_getElem? (by omega : (0 : Int) ≤ (i : Int))
    rw [Int.toNat_natCast]
    exact ho
  have hset : Selector.setIndex st.selector (i : Int) =
      .ok ({ st.selector with buttonText := prefixStr ++ o.label, index := (i : Int) },
           [.emitSelect o.value, .setButtonText (prefixStr ++ o.label),
            .storeIndex (i : Int)]) := by
    rw [setIndex_eq, hg]
  refine ⟨_, _, hset, ?_⟩
  unfold popupClick
  rw [hset, except_bind_ok]

/-- Witness for C6: clicking row 1 of an open two-option pop-up. -/
theorem popup_click_equals_set_index_witness :
    ∃ s' acts,
      Selector.setIndex
          (UIState.selector
            ⟨⟨[⟨"Yes", true, "Yes"⟩, ⟨"No", true, "No"⟩], "(+) Yes", 0⟩, true⟩)
          ((1 : Nat) : Int) = .ok (s', acts) ∧
      popupClick ⟨⟨[⟨"Yes", true, "Yes"⟩, ⟨"No", true, "No"⟩], "(+) Yes", 0⟩, true⟩ 1 =
        .ok ({ selector := s', popupOpen := false }, acts) :=
  popup_click_equals_set_index
    ⟨⟨[⟨"Yes", true, "Yes"⟩, ⟨"No", true, "No"⟩], "(+) Yes", 0⟩, true⟩ 1 "( ) No"
    rfl (by decide)

/-- Claim C7: `RealnameEditor.keypress` forwards a key exactly when the
`re.match` of `[a-zA-Z0-9_\- ]` against it succeeds, i.e. when its first
character is a letter, digit, underscore, hyphen or space; any other key
is swallowed.  In particular `"a"`, `"_"` and `" "` are forwarded and
`"$"` is swallowed. -/
theorem realname_keypress_filter (key : String) (c : Char) (cs : List Char)
    (h : key.data = c :: cs) :
    (realnameKeypress key = some key ↔
      (('a' ≤ c ∧ c ≤ 'z') ∨ ('A' ≤ c ∧ c ≤ 'Z') ∨ ('0' ≤ c ∧ c ≤ '9') ∨
        c = '_' ∨ c = '-' ∨ c = ' ')) ∧
    (realnameKeypress key = none ↔
      ¬ (('a' ≤ c ∧ c ≤ 'z') ∨ ('A' ≤ c ∧ c ≤ 'Z') ∨ ('0' ≤ c ∧ c ≤ '9') ∨
        c = '_' ∨ c = '-' ∨ c = ' ')) ∧
    realnameKeypress "a" = some "a" ∧ realnameKeypress "_" = some "_" ∧
    realnameKeypress " " = some " " ∧ realnameKeypress "$" = none := by
  have hcls : realnameClass c = true ↔
      (('a' ≤ c ∧ c ≤ 'z') ∨ ('A' ≤ c ∧ c ≤ 'Z') ∨ ('0' ≤ c ∧ c ≤ '9') ∨
        c = '_' ∨ c = '-' ∨ c = ' ') := by
    simp [realnameClass]
    tauto
  have hiff := filter_keypress_iff realnameClass key c cs h
  have hfalse : realnameClass c = false ↔ ¬ realnameClass c = true := by
    rcases hb : realnameClass c <;> simp
  refine ⟨?_, ?_, by decide, by decide, by decide, by decide⟩
  · exact (hiff.1).trans hcls
  · exact (hiff.2).trans (hfalse.trans (not_congr hcls))

/-- Witness for C7: the dollar key, whose first character is outside the
class, is swallowed. -/
theorem realname_keypress_filter_witness : realnameKeypress "$" = none :=
  (realname_keypress_filter "$" '$' [] rfl).2.2.2.2.2

/-- Claim C8: `UsernameEditor.keypress` filters on the current field
contents: with an empty value only keys whose first character is in
`[a-z_]` are forwarded; with a non-empty value keys whose first
character is in `[a-z0-9_-]` are forwarded.  In particular on an empty
value `"a"` and `"_"` pass while `"1"` and `"-"` are swallowed, and on a
non-empty value `"1"` and `"-"` pass. -/
theorem username_keypress_filter (value key : String) (c : Char) (cs : List Char)
    (h : key.data = c :: cs) :
    (value = "" →
      (usernameKeypress value key = some key ↔
        (('a' ≤ c ∧ c ≤ 'z') ∨ c = '_'))) ∧
    (value ≠ "" →
      (usernameKeypress value key = some key ↔
        (('a' ≤ c ∧ c ≤ 'z') ∨ ('0' ≤ c ∧ c ≤ '9') ∨ c = '_' ∨ c = '-'))) ∧
    usernameKeypress "" "a" = some "a" ∧ usernameKeypress "" "_" = some "_" ∧
    usernameKeypress "" "1" = none ∧ usernameKeypress "" "-" = none ∧
    usernameKeypress "x" "1" = some "1" ∧ usernameKeypress "x" "-" = some "-" := by
  have hc1 : usernameFirstClass c = true ↔ (('a' ≤ c ∧ c ≤ 'z') ∨ c = '_') := by
    simp [usernameFirstClass]
  have hc2 : usernameRestClass c = true ↔
      (('a' ≤ c ∧ c ≤ 'z') ∨ ('0' ≤ c ∧ c ≤ '9') ∨ c = '_' ∨ c = '-') := by
    simp [usernameRestClass]
    tauto
  refine ⟨?_, ?_, by decide, by decide, by decide, by decide, by decide, by decide⟩
  · intro hv
    subst hv
    have hz : ("" : String).length = 0 := rfl
    have hk : usernameKeypress "" key =
        (if reMatchFirst usernameFirstClass key then some key else none) := by
      unfold usernameKeypress
      rw [if_pos hz]
    rw [hk]
    exact (filter_keypress_iff usernameFirstClass key c cs h).1.trans hc1
  · intro hv
    have hz : ¬ value.length = 0 := fun hc =>
      hv ((string_length_eq_zero_iff value).mp hc)
    have hk : usernameKeypress value key =
        (if reMatchFirst usernameRestClass key then some key else none) := by
      unfold usernameKeypress
      rw [if_neg hz]
    rw [hk]
    exact (filter_keypress_iff usernameRestClass key c cs h).1.trans hc2

/-- Witness for C8: on a non-empty value, the hyphen key is forwarded. -/
theorem username_keypress_filter_witness :
    usernameKeypress "x" "-" = some "-" :=
  (username_keypress_filter "x" "-" '-' [] rfl).2.2.2.2.2.2.2

/-- Claim C9 (implicit): the filters test only the first character of the
key string, so multi-character key names pass whenever their first
character is allowed: `RealnameEditor` and `EmailEditor` forward
`"backspace"`, `"enter"` and `"up"`, while `UsernameEditor` on an empty
field swallows every key whose first character is outside `[a-z_]`. -/
theorem editor_filters_first_char :
    realnameKeypress "backspace" = some "backspace" ∧
    realnameKeypress "enter" = some "enter" ∧
    realnameKeypress "up" = some "up" ∧
    emailKeypress "backspace" = some "backspace" ∧
    emailKeypress "enter" = some "enter" ∧
    emailKeypress "up" = some "up" ∧
    (∀ (key : String) (c : Char) (cs : List Char), key.data = c :: cs →
      ¬ (('a' ≤ c ∧ c ≤ 'z') ∨ c = '_') → usernameKeypress "" key = none) := by
  refine ⟨by decide, by decide, by decide, by decide, by decide, by decide, ?_⟩
  intro key c cs h hc
  have hc1 : usernameFirstClass c = true ↔ (('a' ≤ c ∧ c ≤ 'z') ∨ c = '_') := by
    simp [usernameFirstClass]
  have hb : usernameFirstClass c = false := by
    rcases hbc : usernameFirstClass c
    · rfl
    · exact absurd (hc1.mp hbc) hc
  have hk : usernameKeypress "" key =
      (if reMatchFirst usernameFirstClass key then some key else none) := by
    unfold usernameKeypress
    rw [if_pos (show ("" : String).length = 0 from rfl)]
  rw [hk]
  exact (filter_keypress_iff usernameFirstClass key c cs h).2.mpr hb

/-- Witness for C9: a function-key name starting with an uppercase letter
is swallowed by the empty-field username filter. -/
theorem editor_filters_first_char_witness : usernameKeypress "" "F1" = none :=
  editor_filters_first_char.2.2.2.2.2.2 "F1" 'F' ['1'] rfl (by decide)

/-- Counterexample to C10 as stated: over the two normalized options of
`["a", "b"]`, the initial index `-1` lies outside `0 ≤ index < 2`, yet
construction does not fail: Python list indexing resolves `-1` to the
last option, so the selector is built with button label `"(+) b"`. -/
theorem selector_init_negative_index_counterexample :
    (-1 : Int) < 0 ∧
    Selector.init [RawOpt.str "a", RawOpt.str "b"] (-1) =
      .ok ({ options := [⟨"a", true, "a"⟩, ⟨"b", true, "b"⟩],
             buttonText := "(+) b", index := -1 },
           [.setButtonText "(+) b", .storeIndex (-1)]) := by
  refine ⟨by decide, ?_⟩
  rfl

/-- Claim C10, amended: construction always reads
`options[initial_index]` with Python list indexing, so over a normalized
option list of length `n` it fails — with an `IndexError`, never a
`SelectorError` — exactly when `index < -n` or `index ≥ n` (hence for
every index over an empty list), and a successful construction emits no
`select` event. -/
theorem selector_init_index_behavior (opts : List RawOpt) (index : Int)
    (os : List SelOption) (h : normalizeOpts opts = .ok os) :
    (Selector.init opts index = .error .indexError ↔
      index < -(os.length : Int) ∨ (os.length : Int) ≤ index) ∧
    (∀ s acts, Selector.init opts index = .ok (s, acts) →
      selectEvents acts = []) ∧
    (os = [] → Selector.init opts index = .error .indexError) := by
  have hinit : Selector.init opts index =
      setIndexRaw { options := os, buttonText := prefixStr, index := 0 } index := by
    unfold Selector.init
    rw [h, except_bind_ok]
  have hopts : ({ options := os, buttonText := prefixStr, index := 0 } :
      Selector).options = os := rfl
  have h1 : Selector.init opts index = .error .indexError ↔
      index < -(os.length : Int) ∨ (os.length : Int) ≤ index := by
    rw [hinit, setIndexRaw_eq, hopts]
    rcases hg : pyGet os index with e | o
    · have he : e = .indexError := pyGet_error_eq hg
      subst he
      simp
      exact (pyGet_error_iff os index).mp hg
    · simp
      exact pyGet_ok_range hg
  refine ⟨h1, ?_, ?_⟩
  · intro s acts hok
    rw [hinit, setIndexRaw_eq, hopts] at hok
    rcases hg : pyGet os index with e | o <;> rw [hg] at hok
    · cases hok
    · cases hok
      rfl
  · intro h0
    subst h0
    exact h1.mpr (by simp; omega)

/-- Witness for the amended C10: one valid option, index 5 is out of
range and construction raises `IndexError`. -/
theorem selector_init_index_behavior_witness :
    Selector.init [RawOpt.str "a"] 5 = .error .indexError :=
  (selector_init_index_behavior [RawOpt.str "a"] 5 [⟨"a", true, "a"⟩]
    rfl).1.mpr (by decide)

end Interactive
